import Mathlib

/-!
Verification of the RTL_433 weather-station ingestion pipeline
(`RTL433_WeatherStation.py`).

Numeric values flowing through the program (sensor readings, averages,
converter outputs) are modelled as rationals; decimal literals of the
source such as `10.001` and `1.8` become the corresponding rationals.
Python lists become `List ℚ`; the sparse JSON records become a structure
of `Option` fields; the module-level mutable variables of the main loop
become an explicit state structure threaded through step functions.
-/

namespace RTL433

/-- `UPLOAD_INTERVAL = 1 * 60` (seconds), line 66 of the source. -/
def UPLOAD_INTERVAL : ℕ := 1 * 60

/-- `WEATHER_UPLOAD = True`, line 69 of the source. -/
def WEATHER_UPLOAD : Bool := true

/-- `pulse_timeout = 400000`, line 307 of the source. -/
def pulse_timeout : ℤ := 400000

/-- `rollingAveNum = 5`, line 360 of the source. -/
def rollingAveNum : ℕ := 5

/-- `np.mean` over a Python list of readings: sum divided by length
(yields `0` on the empty list, where numpy would produce NaN). -/
def npMean (l : List ℚ) : ℚ := l.sum / l.length

/-- `rht_to_dp(temp, rh) = temp - (0.36 * (100 - rh))`, lines 124–130. -/
def rht_to_dp (temp rh : ℚ) : ℚ := temp - (36/100 * (100 - rh))

/-- `degc_to_degf(input_temp) = (input_temp * 1.8) + 32`, lines 133–135. -/
def degc_to_degf (input_temp : ℚ) : ℚ := (input_temp * (18/10)) + 32

/-- `ms_to_mph(input_speed) = input_speed * 2.237`, lines 138–140. -/
def ms_to_mph (input_speed : ℚ) : ℚ := input_speed * (2237/1000)

/-- `temp_correct(temp) = temp + 10.001`, lines 176–178. -/
def temp_correct (temp : ℚ) : ℚ := temp + 10001/1000

/-- `ws_correct(ws) = ws * (1 / 0.868976)`, lines 181–184. -/
def ws_correct (ws : ℚ) : ℚ := ws * (1 / (868976/1000000))

/-- The local variable `new_wd` as computed inside the body of
`wd_correct` (lines 187–193): rotate by −90 and fold into [0, 360). -/
def wd_correct_new_wd (wd : ℚ) : ℚ :=
  let a := wd - 90
  let b := if a < 0 then a + 360 else a
  if b ≥ 360 then b - 360 else b

/-- `wd_correct(wd)`, lines 187–193.  The Python function computes
`new_wd` but contains no `return` statement, so it falls off the end and
returns `None` for every input; the computed value is discarded. -/
def wd_correct (wd : ℚ) : Option ℚ :=
  let _new_wd := wd_correct_new_wd wd
  none

/-- `streamRoll(daList)`, lines 166–171: if fewer than 3 entries,
`mean(daList) + (daList[-1] - mean(daList)) / len(daList)`; otherwise the
same formula over `daList[-3:]` (whose length is 3). -/
def streamRoll (daList : List ℚ) : ℚ :=
  if daList.length < 3 then
    npMean daList + (daList.getLastD 0 - npMean daList) / daList.length
  else
    let lastThree := daList.drop (daList.length - 3)
    npMean lastThree + (daList.getLastD 0 - npMean lastThree) / lastThree.length

/-- The smoother contract as worded in the spec (section 4.2): if history
length < 3, estimate = mean(history) + (latest − mean(history))/length;
otherwise use only the last 3 entries with the same formula (dividing by
3, the length of that window). -/
def specSmootherEstimate (history : List ℚ) : ℚ :=
  let latest := history.getLastD 0
  if history.length < 3 then
    npMean history + (latest - npMean history) / history.length
  else
    let lastThree := history.drop (history.length - 3)
    npMean lastThree + (latest - npMean lastThree) / 3

/-- `clearVars()`, lines 201–207: four fresh empty lists and the
integer 0 (assigned in the loop to `hum, tempC, windDir, windSpeed,
pulse`). -/
def clearVars : List ℚ × List ℚ × List ℚ × List ℚ × ℤ :=
  ([], [], [], [], 0)

/-- The temperature string built by `display_data` (lines 212–216):
`degc_to_degf(temp_correct(np.mean(c)))`. -/
def display_data_tempF (c : List ℚ) : ℚ :=
  degc_to_degf (temp_correct (npMean c))

/-- The `tempf` field of the `weather_data` dict built by
`upload_weather` (line 248): `degc_to_degf(temp_correct(np.mean(tempC)))`. -/
def upload_weather_tempf (tempC : List ℚ) : ℚ :=
  degc_to_degf (temp_correct (npMean tempC))

/-- The update applied to `tempTrack` when a temperature record arrives
(lines 359–362): append the new reading, then if the length exceeds
`rollingAveNum = 5`, delete the prefix `[0 : len - (rollingAveNum - 1)]`,
keeping only the last 4 entries. -/
def tempTrackStep (track : List ℚ) (v : ℚ) : List ℚ :=
  let t := track ++ [v]
  if t.length > rollingAveNum then t.drop (t.length - (rollingAveNum - 1)) else t

/-- One parsed line of telemetry: after `pd.read_json`, dropping `time`,
`id` and `model`, the remaining columns are a sparse subset of the four
channel fields (lines 340–355). -/
structure RawRecord where
  humidity : Option ℚ
  wind_direction : Option ℚ
  wind_speed_ms : Option ℚ
  temperature_C : Option ℚ
deriving DecidableEq

/-- The module-level mutable state of the main loop (lines 302–314):
completeness flags, the liveness counter `pulse`, the upload timer, the
three per-channel buffers, the latest temperature values `tempC`, and
the rolling temperature history `tempTrack`. -/
structure LoopState where
  have_hum : Bool
  have_temp : Bool
  have_wd : Bool
  have_ws : Bool
  pulse : ℤ
  upload_timer : ℕ
  hum : List ℚ
  tempC : List ℚ
  windDir : List ℚ
  windSpeed : List ℚ
  tempTrack : List ℚ
deriving DecidableEq

/-- The initial values of the loop state, lines 302–314. -/
def initialState : LoopState :=
  { have_hum := false, have_temp := false, have_wd := false, have_ws := false
    pulse := 0, upload_timer := 0
    hum := [], tempC := [], windDir := [], windSpeed := [], tempTrack := [] }

/-- Routing one parsed record into the accumulator state (lines
345–372): append humidity / wind direction / wind speed readings to
their buffers and set the corresponding flag; for a temperature reading,
overwrite `tempC`, push onto `tempTrack` (bounded), run `streamRoll`,
and set `have_temp` from the acceptance test
`abs(tempTrack[-1] - roll) > 5`. -/
def processRecord (s : LoopState) (r : RawRecord) : LoopState :=
  let s1 := match r.humidity with
    | some v => { s with hum := s.hum ++ [v], have_hum := true }
    | none => s
  let s2 := match r.wind_direction with
    | some v => { s1 with windDir := s1.windDir ++ [v], have_wd := true }
    | none => s1
  let s3 := match r.wind_speed_ms with
    | some v => { s2 with windSpeed := s2.windSpeed ++ [v], have_ws := true }
    | none => s2
  match r.temperature_C with
  | some v =>
    let track := tempTrackStep s3.tempTrack v
    let roll := streamRoll track
    { s3 with tempC := [v], tempTrack := track
              have_temp := if 5 < |track.getLastD 0 - roll| then false else true }
  | none => s3

/-- What can come out of one `q.get(timeout=1)` attempt: a timeout, a
line that `pd.read_json` fails to parse as JSON telemetry (modelled as
`line none`), or a line parsing to a record. -/
inductive LineInput where
  | timeout
  | line (payload : Option RawRecord)
deriving DecidableEq

/-- An exception escaping the loop body. The parse pipeline of lines
340–344 runs in the `else:` clause of the `try` statement, so an
exception it raises is not caught by the `except Empty` clause and
propagates out of the `while` loop. -/
inductive CrashErr where
  | parseException
deriving DecidableEq

/-- One pass through the top of the loop body (lines 316–384):
increment `upload_timer`; on a queue timeout increment `pulse`;
on a received line decrement `pulse` and, if `pulse > 0` after the
decrement (the warm-up gate of line 333), parse the line — a malformed
line raises an uncaught exception, a well-formed one is routed through
`processRecord`. -/
def lineStep (s : LoopState) (i : LineInput) : Except CrashErr LoopState :=
  let s := { s with upload_timer := s.upload_timer + 1 }
  match i with
  | .timeout => .ok { s with pulse := s.pulse + 1 }
  | .line payload =>
    let s := { s with pulse := s.pulse - 1 }
    if s.pulse > 0 then
      match payload with
      | none => .error .parseException
      | some r => .ok (processRecord s r)
    else
      .ok s

/-- The conjunction of the four completeness flags tested at lines
389–394. -/
def allFlags (s : LoopState) : Bool :=
  s.have_hum && s.have_temp && s.have_wd && s.have_ws

/-- Possible outcomes of the `urlopen` round trip inside
`upload_weather`. -/
inductive NetError where
  | urlError
  | timeoutError
deriving DecidableEq

/-- `upload_weather` (lines 236–270): builds the parameter dict and
performs one network call; the `try`/bare-`except` around the call
(lines 261–270) catches every exception and prints it, so the function
always returns normally, whatever the network outcome. -/
def upload_weather (wu_id wu_key : String) (tempC hum windDir windSpeed : List ℚ)
    (net : Except NetError String) : Except NetError Unit :=
  let _tempf := upload_weather_tempf tempC
  let _dewPtF := rht_to_dp (upload_weather_tempf tempC) (npMean hum)
  let _winddir := wd_correct (npMean windDir)
  let _windspd := ws_correct (ms_to_mph (npMean windSpeed))
  let _ids := (wu_id, wu_key)
  match net with
  | .ok _html => .ok ()
  | .error _e => .ok ()

/-- The tail of each loop iteration (lines 389–428): when all four
completeness flags are true, display the data; if additionally
`upload_timer > UPLOAD_INTERVAL`, call `upload_weather` (when
`WEATHER_UPLOAD`), reset `upload_timer` to 0 and assign
`clearVars()` to `hum, tempC, windDir, windSpeed, pulse`; in every
completed cycle, finally reset the four flags to `False`. -/
def cycleEpilogue (wu_id wu_key : String) (net : Except NetError String)
    (s : LoopState) : LoopState :=
  if allFlags s then
    let s :=
      if s.upload_timer > UPLOAD_INTERVAL then
        let _up :=
          if WEATHER_UPLOAD then
            some (upload_weather wu_id wu_key [s.tempC.getLastD 0] s.hum
              s.windDir s.windSpeed net)
          else none
        let (a1, a2, a3, a4, a5) := clearVars
        { s with upload_timer := 0, hum := a1, tempC := a2, windDir := a3
                 windSpeed := a4, pulse := a5 }
      else s
    { s with have_hum := false, have_temp := false
             have_wd := false, have_ws := false }
  else s

/-- The acceptance decision of lines 359–372 for one temperature reading
`v` arriving with rolling history `track`: push the reading, run
`streamRoll`, and accept unless `abs(tempTrack[-1] - roll) > 5`. -/
def tempAccepted (track : List ℚ) (v : ℚ) : Bool :=
  let t := tempTrackStep track v
  if 5 < |t.getLastD 0 - streamRoll t| then false else true

/-- A record carrying only a humidity reading. -/
def rHum (v : ℚ) : RawRecord := ⟨some v, none, none, none⟩

/-- A record carrying only a wind-direction reading. -/
def rWd (v : ℚ) : RawRecord := ⟨none, some v, none, none⟩

/-- A record carrying only a wind-speed reading. -/
def rWs (v : ℚ) : RawRecord := ⟨none, none, some v, none⟩

/-- A record carrying only a temperature reading. -/
def rTemp (v : ℚ) : RawRecord := ⟨none, none, none, some v⟩

/-- True when some record of the list carries a humidity reading. -/
def observesHum (rs : List RawRecord) : Bool := rs.any fun r => r.humidity.isSome

/-- True when some record of the list carries a wind-direction reading. -/
def observesWd (rs : List RawRecord) : Bool := rs.any fun r => r.wind_direction.isSome

/-- True when some record of the list carries a wind-speed reading. -/
def observesWs (rs : List RawRecord) : Bool := rs.any fun r => r.wind_speed_ms.isSome

/-- The acceptance decision of the most recent temperature-bearing
record of the list, threading the rolling history through the trimming
of lines 359–362; `b` is returned when no record carries a temperature. -/
def lastTempFlag (track : List ℚ) (b : Bool) : List RawRecord → Bool
  | [] => b
  | r :: rs =>
    match r.temperature_C with
    | some v => lastTempFlag (tempTrackStep track v) (tempAccepted track v) rs
    | none => lastTempFlag track b rs

/-- The loop state used to exhibit a line arriving after warm-up
(`pulse` has climbed to 2, as it does once timeouts outnumber lines). -/
def c2State : LoopState := { initialState with pulse := 2 }

/-- A mid-cycle loop state: all four flags set, nonempty buffers, with
the upload timer still below the interval. -/
def c4State : LoopState :=
  { have_hum := true, have_temp := true, have_wd := true, have_ws := true
    pulse := 1, upload_timer := 5
    hum := [50], tempC := [10], windDir := [45], windSpeed := [3], tempTrack := [10] }

/-- The same completed-cycle state at an upload boundary: the upload
timer has passed `UPLOAD_INTERVAL`. -/
def c4UpState : LoopState := { c4State with upload_timer := 61 }

/-- The state whose rolling temperature history is `[10, 10, 10]`, as in
the spec's smoother examples. -/
def historyState : LoopState := { initialState with tempTrack := [10, 10, 10] }

/-- The record sequence showing that `have_temp` tracks the latest
temperature record, not "accepted at least once": an accepted
temperature, then a rejected spike, then the other three channels. -/
def c7Recs : List RawRecord := [rTemp 10, rTemp 100, rHum 50, rWd 45, rWs 3]

/-- A one-record-per-channel sequence in which every channel reports
once and the single temperature reading is accepted. -/
def c7WitnessRecs : List RawRecord := [rWs 3, rHum 50, rTemp 10, rWd 45]

/-- Asserts that the four completeness flags of a state are all false. -/
def flagsFalse (s1 : LoopState) : Prop :=
  s1.have_hum = false ∧ s1.have_temp = false ∧ s1.have_wd = false ∧ s1.have_ws = false

instance (s1 : LoopState) : Decidable (flagsFalse s1) := by
  unfold flagsFalse
  infer_instance

/-- Relates a pre-state to a post-state in which all four channel
buffers are empty, all flags are false, pulse and upload timer are 0,
and the temperature history is carried over unchanged. -/
def flushedState (s s1 : LoopState) : Prop :=
  s1.hum = [] ∧ s1.tempC = [] ∧ s1.windDir = [] ∧ s1.windSpeed = [] ∧
  flagsFalse s1 ∧ s1.pulse = 0 ∧ s1.upload_timer = 0 ∧ s1.tempTrack = s.tempTrack

instance (s s1 : LoopState) : Decidable (flushedState s s1) := by
  unfold flushedState
  infer_instance

/-- States that each channel buffer of the post-state was emptied when
the pre-state's upload timer had passed the interval, and was left
untouched otherwise. -/
def buffersClearedIffUpload (s s1 : LoopState) : Prop :=
  s1.hum = (if UPLOAD_INTERVAL < s.upload_timer then [] else s.hum) ∧
  s1.tempC = (if UPLOAD_INTERVAL < s.upload_timer then [] else s.tempC) ∧
  s1.windDir = (if UPLOAD_INTERVAL < s.upload_timer then [] else s.windDir) ∧
  s1.windSpeed = (if UPLOAD_INTERVAL < s.upload_timer then [] else s.windSpeed)

instance (s s1 : LoopState) : Decidable (buffersClearedIffUpload s s1) := by
  unfold buffersClearedIffUpload
  infer_instance

lemma tempTrackStep_length_le (t : List ℚ) (v : ℚ) :
    (tempTrackStep t v).length ≤ 5 := by
  unfold tempTrackStep rollingAveNum
  by_cases h : (t ++ [v]).length > 5
  · simp only [h, if_pos, List.length_drop]
    omega
  · simp only [h, if_neg, ite_false]
    simp only [List.length_append, List.length_singleton] at h ⊢
    omega

/-- Claim C6: after any number of ingest operations starting from the
empty history, the rolling temperature history kept by the main loop
(`tempTrack`, trimmed at lines 359–362) has length at most 5. -/
theorem tempTrack_length_le_five (vs : List ℚ) :
    (List.foldl tempTrackStep [] vs).length ≤ 5 := by
  induction vs using List.reverseRecOn with
  | nil => simp
  | append_singleton xs x _ih =>
    rw [List.foldl_append]
    simpa using tempTrackStep_length_le (List.foldl tempTrackStep [] xs) x

/-- Claim C5: `streamRoll` computes exactly the estimate the spec
describes — mean plus (latest − mean)/length when fewer than 3 entries,
the same formula over the last 3 entries (dividing by 3) otherwise —
and on history `[10, 10, 13]` the estimate is `11 + 2/3`, so the
reading 13 passes the acceptance test `|13 − estimate| ≤ 5`. -/
theorem streamRoll_matches_spec :
    (∀ l : List ℚ, streamRoll l = specSmootherEstimate l) ∧
    streamRoll [10, 10, 13] = 11 + 2/3 ∧
    |13 - streamRoll [10, 10, 13]| ≤ 5 := by
  refine ⟨fun l => ?_, by norm_num [streamRoll, npMean],
    by norm_num [streamRoll, npMean, abs_le]⟩
  unfold streamRoll specSmootherEstimate
  by_cases h : l.length < 3
  · simp [h]
  · have h3 : (l.drop (l.length - 3)).length = 3 := by
      rw [List.length_drop]
      omega
    simp [h, h3]

/-- Claim C10: the temperature reported by both the display path and the
upload path is biased upward by 10.001 degrees Celsius before the
Celsius-to-Fahrenheit conversion: both equal
`((mean(t) + 10.001) * 1.8) + 32`. -/
theorem reported_temp_bias (t : List ℚ) :
    display_data_tempF t = ((npMean t + 10.001) * 1.8) + 32 ∧
    upload_weather_tempf t = ((npMean t + 10.001) * 1.8) + 32 := by
  unfold display_data_tempF upload_weather_tempf degc_to_degf temp_correct
  norm_num

/-- Claim C1 (code behaviour at the failing inputs): `wd_correct` has no
`return` statement, so it returns `None` on every input — in particular
on 45 and 100 — even though the value it computes internally is the
claimed 315 (resp. 10). -/
theorem wd_correct_returns_none :
    wd_correct 45 = none ∧ wd_correct 100 = none ∧
    wd_correct_new_wd 45 = 315 ∧ wd_correct_new_wd 100 = 10 :=
  ⟨rfl, rfl, by norm_num [wd_correct_new_wd], by norm_num [wd_correct_new_wd]⟩

/-- Claim C2 (counterexample): once the warm-up gate has opened (here
`pulse = 2`, so `pulse` is still positive after the decrement), a line
that is not valid JSON telemetry makes the loop body raise an uncaught
parse exception instead of being skipped. -/
theorem malformed_line_after_warmup_crashes :
    lineStep c2State (LineInput.line none) = Except.error CrashErr.parseException := by
  simp [lineStep, c2State, initialState]

/-- Claim C2 (amended): a malformed line is skipped — leaving every
accumulator untouched and only incrementing the upload timer and
decrementing `pulse` — exactly when `pulse ≤ 0` after the decrement
(the warm-up gate); otherwise the parse failure escapes the loop as an
exception. -/
theorem malformed_line_skipped_only_during_warmup (s : LoopState) :
    lineStep s (LineInput.line none) =
      (if 0 < s.pulse - 1 then Except.error CrashErr.parseException
       else Except.ok { s with upload_timer := s.upload_timer + 1, pulse := s.pulse - 1 }) := by
  by_cases h : (0:ℤ) < s.pulse - 1 <;> simp [lineStep, h]

lemma processRecord_rTemp (s : LoopState) (v : ℚ) :
    processRecord s (rTemp v) =
      { s with tempC := [v], tempTrack := tempTrackStep s.tempTrack v
               have_temp := tempAccepted s.tempTrack v } := rfl

lemma tempAccepted_nil_ten : tempAccepted [] 10 = true := by
  norm_num [tempAccepted, tempTrackStep, rollingAveNum, streamRoll, npMean,
    List.getLastD, lt_abs]

lemma tempAccepted_ten_hundred : tempAccepted [10] 100 = false := by
  norm_num [tempAccepted, tempTrackStep, rollingAveNum, streamRoll, npMean,
    List.getLastD, lt_abs]

lemma tempAccepted_history_twenty : tempAccepted [10, 10, 10] 20 = true := by
  norm_num [tempAccepted, tempTrackStep, rollingAveNum, streamRoll, npMean,
    List.getLastD, lt_abs]

/-- Claim C3 (counterexample): with history `[10, 10, 10]` and new
reading 20, the acceptance test passes — `|20 − streamRoll| ≤ 5` — and
`have_temp` is set to true, contradicting the claimed rejection. -/
theorem temp_spike_twenty_is_accepted :
    (processRecord historyState (rTemp 20)).have_temp = true ∧
    ¬ (5 < |20 - streamRoll [10, 10, 10, 20]|) := by
  constructor
  · rw [processRecord_rTemp]
    show tempAccepted historyState.tempTrack 20 = true
    have : historyState.tempTrack = [10, 10, 10] := rfl
    rw [this, tempAccepted_history_twenty]
  · norm_num [streamRoll, npMean, lt_abs]

/-- Claim C3 (amended): with history `[10, 10, 10]` and new reading 20
appended, the rolling estimate is `140/9 ≈ 15.56`, the deviation
`|20 − 140/9| = 40/9 ≈ 4.44` is within the tolerance 5, so the reading
is accepted and the temperature completeness flag becomes true. -/
theorem temp_spike_twenty_estimate :
    streamRoll [10, 10, 10, 20] = 140/9 ∧
    |(20:ℚ) - 140/9| ≤ 5 ∧
    (processRecord historyState (rTemp 20)).tempTrack = [10, 10, 10, 20] ∧
    (processRecord historyState (rTemp 20)).have_temp = true := by
  refine ⟨by norm_num [streamRoll, npMean, List.getLastD], by norm_num [abs_le], ?_, ?_⟩
  · rw [processRecord_rTemp]
    norm_num [historyState, initialState, tempTrackStep, rollingAveNum]
  · rw [processRecord_rTemp]
    show tempAccepted historyState.tempTrack 20 = true
    have : historyState.tempTrack = [10, 10, 10] := rfl
    rw [this, tempAccepted_history_twenty]

/-- Claim C4 (counterexample): a completed cycle whose upload timer is
still below the interval (here 5 ≤ 60) resets the completeness flags but
leaves the humidity buffer untouched, so buffers and flags are not
cleared together and a buffer accumulates across cycles. -/
theorem buffers_survive_cycle_between_uploads :
    allFlags c4State = true ∧
    (cycleEpilogue "ID" "KEY" (Except.ok "") c4State).have_hum = false ∧
    (cycleEpilogue "ID" "KEY" (Except.ok "") c4State).hum = [50] := by
  refine ⟨rfl, ?_, ?_⟩ <;>
    simp [cycleEpilogue, c4State, allFlags, UPLOAD_INTERVAL]

/-- Claim C4 (amended): when a cycle completes, the four completeness
flags are always reset before the next line is processed, but the four
channel buffers are cleared only when additionally the upload timer has
passed `UPLOAD_INTERVAL`; otherwise they are carried unchanged into the
next cycle. -/
theorem cycle_flags_reset_buffers_upload_gated (wu_id wu_key : String)
    (net : Except NetError String) (s : LoopState) (h : allFlags s = true) :
    flagsFalse (cycleEpilogue wu_id wu_key net s) ∧
    buffersClearedIffUpload s (cycleEpilogue wu_id wu_key net s) := by
  by_cases hg : UPLOAD_INTERVAL < s.upload_timer <;>
    simp [cycleEpilogue, h, hg, clearVars, flagsFalse, buffersClearedIffUpload]

/-- Witness for the amended C4 at a concrete completed-cycle state past
the upload boundary. -/
theorem cycle_flags_reset_buffers_upload_gated_witness :
    flagsFalse (cycleEpilogue "ID" "KEY" (Except.ok "") c4UpState) ∧
    buffersClearedIffUpload c4UpState (cycleEpilogue "ID" "KEY" (Except.ok "") c4UpState) :=
  cycle_flags_reset_buffers_upload_gated "ID" "KEY" (Except.ok "") c4UpState rfl

/-- Claim C8: at an upload boundary the flush empties all four channel
buffers, resets the four completeness flags, zeroes `pulse` (and the
upload timer), and leaves the rolling temperature history unchanged. -/
theorem upload_boundary_flush (wu_id wu_key : String)
    (net : Except NetError String) (s : LoopState) (h : allFlags s = true)
    (hu : UPLOAD_INTERVAL < s.upload_timer) :
    flushedState s (cycleEpilogue wu_id wu_key net s) := by
  simp [cycleEpilogue, h, hu, clearVars, flushedState, flagsFalse]

/-- Witness for C8 at a concrete completed-cycle state with
`upload_timer = 61 > 60`. -/
theorem upload_boundary_flush_witness :
    flushedState c4UpState (cycleEpilogue "ID" "KEY" (Except.ok "") c4UpState) :=
  upload_boundary_flush "ID" "KEY" (Except.ok "") c4UpState rfl (by decide)

/-- Claim C9: `upload_weather` returns normally on every network
outcome — the bare `except` swallows failures — and the upload timer is
reset to 0 by the upload branch regardless of that outcome, so the next
upload opportunity is the next interval boundary. -/
theorem upload_failure_caught_timer_reset (wu_id wu_key : String)
    (tempC hum windDir windSpeed : List ℚ) (net : Except NetError String)
    (s : LoopState) (h : allFlags s = true) (hu : UPLOAD_INTERVAL < s.upload_timer) :
    upload_weather wu_id wu_key tempC hum windDir windSpeed net = Except.ok () ∧
    (cycleEpilogue wu_id wu_key net s).upload_timer = 0 := by
  constructor
  · cases net <;> rfl
  · simp [cycleEpilogue, h, hu, clearVars]

/-- Witness for C9: a timed-out network call is swallowed and the timer
still returns to 0. -/
theorem upload_failure_caught_timer_reset_witness :
    upload_weather "ID" "KEY" [1] [2] [3] [4] (Except.error NetError.timeoutError) =
      Except.ok () ∧
    (cycleEpilogue "ID" "KEY" (Except.error NetError.timeoutError) c4UpState).upload_timer = 0 :=
  upload_failure_caught_timer_reset "ID" "KEY" [1] [2] [3] [4]
    (Except.error NetError.timeoutError) c4UpState rfl (by decide)

lemma processRecord_have_hum (s : LoopState) (r : RawRecord) :
    (processRecord s r).have_hum = (s.have_hum || r.humidity.isSome) := by
  rcases r with ⟨h1, h2, h3, h4⟩
  cases h1 <;> cases h2 <;> cases h3 <;> cases h4 <;> simp [processRecord]

lemma processRecord_have_wd (s : LoopState) (r : RawRecord) :
    (processRecord s r).have_wd = (s.have_wd || r.wind_direction.isSome) := by
  rcases r with ⟨h1, h2, h3, h4⟩
  cases h1 <;> cases h2 <;> cases h3 <;> cases h4 <;> simp [processRecord]

lemma processRecord_have_ws (s : LoopState) (r : RawRecord) :
    (processRecord s r).have_ws = (s.have_ws || r.wind_speed_ms.isSome) := by
  rcases r with ⟨h1, h2, h3, h4⟩
  cases h1 <;> cases h2 <;> cases h3 <;> cases h4 <;> simp [processRecord]

lemma processRecord_have_temp (s : LoopState) (r : RawRecord) :
    (processRecord s r).have_temp =
      (match r.temperature_C with
       | some v => tempAccepted s.tempTrack v
       | none => s.have_temp) := by
  rcases r with ⟨h1, h2, h3, h4⟩
  cases h1 <;> cases h2 <;> cases h3 <;> cases h4 <;> simp [processRecord, tempAccepted]

lemma processRecord_tempTrack (s : LoopState) (r : RawRecord) :
    (processRecord s r).tempTrack =
      (match r.temperature_C with
       | some v => tempTrackStep s.tempTrack v
       | none => s.tempTrack) := by
  rcases r with ⟨h1, h2, h3, h4⟩
  cases h1 <;> cases h2 <;> cases h3 <;> cases h4 <;> simp [processRecord]

lemma foldl_have_hum (rs : List RawRecord) (s : LoopState) :
    (rs.foldl processRecord s).have_hum = (s.have_hum || observesHum rs) := by
  induction rs generalizing s with
  | nil => simp [observesHum]
  | cons r rs ih =>
    simp [List.foldl_cons, ih, processRecord_have_hum, observesHum, Bool.or_assoc]

lemma foldl_have_wd (rs : List RawRecord) (s : LoopState) :
    (rs.foldl processRecord s).have_wd = (s.have_wd || observesWd rs) := by
  induction rs generalizing s with
  | nil => simp [observesWd]
  | cons r rs ih =>
    simp [List.foldl_cons, ih, processRecord_have_wd, observesWd, Bool.or_assoc]

lemma foldl_have_ws (rs : List RawRecord) (s : LoopState) :
    (rs.foldl processRecord s).have_ws = (s.have_ws || observesWs rs) := by
  induction rs generalizing s with
  | nil => simp [observesWs]
  | cons r rs ih =>
    simp [List.foldl_cons, ih, processRecord_have_ws, observesWs, Bool.or_assoc]

lemma foldl_have_temp (rs : List RawRecord) (s : LoopState) :
    (rs.foldl processRecord s).have_temp = lastTempFlag s.tempTrack s.have_temp rs := by
  induction rs generalizing s with
  | nil => rfl
  | cons r rs ih =>
    rw [List.foldl_cons, ih, processRecord_have_temp, processRecord_tempTrack]
    rcases hr : r.temperature_C with _ | v <;> simp [lastTempFlag, hr]

/-- Claim C7 (counterexample): in the sequence `c7Recs` every channel is
observed and the first temperature reading is accepted (`have_temp` is
true after it), yet the final conjunction of the four flags is false,
because the later spike overwrote `have_temp` — so "accepted at least
once, in any order" does not characterize the completeness test. -/
theorem accepted_temp_overridden_by_later_spike :
    ([rTemp 10].foldl processRecord initialState).have_temp = true ∧
    observesHum c7Recs = true ∧ observesWd c7Recs = true ∧ observesWs c7Recs = true ∧
    allFlags (c7Recs.foldl processRecord initialState) = false := by
  have hT0 : tempTrackStep [] 10 = [10] := rfl
  refine ⟨?_, by simp [c7Recs, observesHum, rTemp, rHum, rWd, rWs],
    by simp [c7Recs, observesWd, rTemp, rHum, rWd, rWs],
    by simp [c7Recs, observesWs, rTemp, rHum, rWd, rWs], ?_⟩
  · rw [List.foldl_cons, List.foldl_nil, processRecord_rTemp]
    show tempAccepted initialState.tempTrack 10 = true
    have : initialState.tempTrack = [] := rfl
    rw [this, tempAccepted_nil_ten]
  · rw [allFlags, foldl_have_temp]
    have : lastTempFlag initialState.tempTrack initialState.have_temp c7Recs = false := by
      have : initialState.tempTrack = [] := rfl
      rw [this]
      simp [c7Recs, lastTempFlag, rTemp, rHum, rWd, rWs, hT0, tempAccepted_ten_hundred]
    simp [this]

/-- Claim C7 (amended): after any record sequence starting from a state
whose four flags are reset, the completeness conjunction is true iff
humidity, wind direction and wind speed were each observed at least
once AND the most recent temperature-bearing record was accepted by the
smoother (so arrival order is irrelevant only for the three monotone
flags, not for temperature). -/
theorem completeness_conjunction (s : LoopState) (rs : List RawRecord)
    (hh : s.have_hum = false) (ht : s.have_temp = false)
    (hw : s.have_wd = false) (hws : s.have_ws = false) :
    allFlags (rs.foldl processRecord s) =
      (observesHum rs && lastTempFlag s.tempTrack false rs &&
       observesWd rs && observesWs rs) := by
  rw [allFlags, foldl_have_hum, foldl_have_temp, foldl_have_wd, foldl_have_ws,
    hh, ht, hw, hws]
  simp

/-- Witness for the amended C7 on a concrete four-record sequence from
the initial state. -/
theorem completeness_conjunction_witness :
    allFlags (c7WitnessRecs.foldl processRecord initialState) =
      (observesHum c7WitnessRecs && lastTempFlag initialState.tempTrack false c7WitnessRecs &&
       observesWd c7WitnessRecs && observesWs c7WitnessRecs) :=
  completeness_conjunction initialState c7WitnessRecs rfl rfl rfl rfl

end RTL433
